import Mathlib

/-!
A verification development for the SLO generator core
(`slo_generator/report.py`, `slo_generator/compute.py`,
`slo_generator/utils.py`, `slo_generator/constants.py`).

Python numeric values (mixed `int` / `float`) are embedded as exact
rationals `ℚ`; `round(x, n)` is Python 3 banker's rounding (half to even)
carried out on the exact value, and `int(x)` is truncation toward zero.
Fallible code paths (uncaught Python exceptions such as `ZeroDivisionError`
or `TypeError`) are embedded as `Option` / `Except` results.
-/

set_option maxRecDepth 4000

namespace SloGen

/-! ## Numeric helpers: Python `round`, `int`, and the `NO_DATA` sentinel -/

/-- The sentinel from `constants.py`: `NO_DATA: int = -1`. -/
def NO_DATA : ℚ := -1

/-- Round a rational to the nearest integer, ties to the even integer
(Python 3 `round` on exact values). -/
def roundHalfEven (q : ℚ) : ℤ :=
  let f := ⌊q⌋
  let r := q - (f : ℚ)
  if r < 1 / 2 then f
  else if 1 / 2 < r then f + 1
  else if 2 ∣ f then f else f + 1

/-- Python `round(q, n)` on exact rationals. -/
def pyRound (q : ℚ) (n : ℕ) : ℚ := (roundHalfEven (q * 10 ^ n) : ℚ) / 10 ^ n

/-- Python `int(q)`: truncation toward zero. -/
def pyInt (q : ℚ) : ℤ := if q < 0 then -⌊-q⌋ else ⌊q⌋

/-- Rounding an exact integer is the identity. -/
theorem roundHalfEven_intCast (z : ℤ) : roundHalfEven (z : ℚ) = z := by
  unfold roundHalfEven
  simp [Int.floor_intCast]

/-- Lemma: `pyRound` leaves a rational with exact `n`-decimal representation
unchanged. -/
theorem pyRound_eq_self (q : ℚ) (n : ℕ) (z : ℤ) (h : q * 10 ^ n = (z : ℚ)) :
    pyRound q n = q := by
  unfold pyRound
  rw [h, roundHalfEven_intCast, ← h]
  have h10 : ((10 : ℚ) ^ n) ≠ 0 := by positivity
  field_simp

/-! ## Backend results

A backend method returns an arbitrary Python object; the report layer
inspects it with `isinstance`. We embed the shapes `_validate` / `get_sli`
distinguish: `None`, a tuple of elements (each element numeric, `None`, or
of some other type), a number, or a value of some other type. -/

/-- An element of a backend result tuple. -/
inductive PyVal where
  | num (q : ℚ)
  | pynone
  | other (typeName : String)
deriving DecidableEq, Repr

/-- A raw backend result. -/
inductive BackendData where
  | pynone
  | tup (elems : List PyVal)
  | num (q : ℚ)
  | other (typeName : String)
deriving DecidableEq, Repr

/-- Check `isinstance(n, (float, int))` for a tuple element. -/
def pyIsNum : PyVal → Bool
  | .num _ => true
  | _ => false

/-- Rendering of a tuple element inside f-string error messages
(approximates Python's `repr`; no claim depends on the exact rendering). -/
def pyValStr : PyVal → String
  | .num q => toString q
  | .pynone => "None"
  | .other t => t

/-- Rendering of a backend tuple inside f-string error messages. -/
def tupleStr (xs : List PyVal) : String :=
  "(" ++ String.intercalate ", " (xs.map pyValStr) ++ ")"

/-! ## `SLOReport._validate` (report.py) -/

/-- Message from `report.py`: backend result of the wrong type. -/
def typeMismatchMsg (typeName : String) : String :=
  "Backend method returned an object of type " ++ typeName ++
  ". It should instead return a tuple (good_count, bad_count) or a numeric SLI value (float / int)."

/-- Message from `report.py`: tuple of the wrong length. -/
def arityMsg (n : ℕ) : String :=
  "Backend method returned a tuple with " ++ toString n ++ " items.Expected 2 items."

/-- Message from `report.py`: tuple with a non-numeric element. -/
def elemTypeMsg : String :=
  "Backend method returned a tuple with some elements having a type different than float or int"

/-- Message from `report.py`: tuple containing `None` (unreachable after the
element-type check, kept for faithfulness). -/
def noneElemMsg (xs : List PyVal) : String :=
  "Backend method returned a valid tuple " ++ tupleStr xs ++ " but one of the values is None."

/-- Message from `report.py`: tuple equal to `(NO_DATA, NO_DATA)`. -/
def noDataTupleMsg (xs : List PyVal) : String :=
  "Backend method returned a valid tuple " ++ tupleStr xs ++
  " but the good and bad count is NO_DATA (-1)."

/-- Message from `report.py`: not enough valid events. -/
def insufficientMsg (total minValid : ℚ) : String :=
  "Not enough valid events (" ++ toString total ++ ") found. Minimum valid events: " ++
  toString minValid ++ "."

/-- Message from `report.py`: scalar backend result equal to `NO_DATA`. -/
def scalarNoDataMsg : String := "Backend returned NO_DATA (-1)."

/-- Embedding of `SLOReport._validate(data)`. Returns `.ok ()` when the data is valid;
`.error msg?` when the report must be marked invalid, where `msg?` is the
error string appended to `self.errors` (`none` in the `data is None` case,
which returns `False` without appending anything). `minValidEvents` is the
`MIN_VALID_EVENTS` environment constant (default 1). -/
def validateData (minValidEvents : ℚ) : BackendData → Except (Option String) Unit
  | .pynone => .error none
  | .other t => .error (some (typeMismatchMsg t))
  | .tup xs =>
    match xs with
    | [g, b] =>
      if ¬(pyIsNum g ∧ pyIsNum b) then .error (some elemTypeMsg)
      else if g = .pynone ∨ b = .pynone then .error (some (noneElemMsg xs))
      else
        match g, b with
        | .num gq, .num bq =>
          if gq = NO_DATA ∧ bq = NO_DATA then .error (some (noDataTupleMsg xs))
          else if gq + bq < minValidEvents then .error (some (insufficientMsg (gq + bq) minValidEvents))
          else .ok ()
        | _, _ => .error (some elemTypeMsg)
    | other => .error (some (arityMsg other.length))
  | .num q => if q = NO_DATA then .error (some scalarNoDataMsg) else .ok ()

/-! ## `SLOReport.get_sli` (report.py) -/

/-- The `NO_DATA` normalization in `get_sli`: `if count == NO_DATA: count = 0`. -/
def normalizeNoData (q : ℚ) : ℚ := if q = NO_DATA then 0 else q

/-- Embedding of `SLOReport.get_sli(data)`: SLI value plus good / bad counts. `none`
embeds an uncaught Python exception (tuple unpacking failure, `TypeError`
on non-numeric operands, or `ZeroDivisionError` when the normalized counts
sum to zero). -/
def get_sli : BackendData → Option (ℚ × ℚ × ℚ)
  | .tup [.num gq, .num bq] =>
    let g := normalizeNoData gq
    let b := normalizeNoData bq
    if g + b = 0 then none
    else some (pyRound (g / (g + b)) 6, g, b)
  | .tup _ => none
  | .num q => some (pyRound q 6, NO_DATA, NO_DATA)
  | _ => none

example : validateData 1 (.tup [.num 15, .num (-1)]) = .ok () := by
  simp [validateData, pyIsNum]
  norm_num [NO_DATA]
example : validateData 1 (.tup [.num 0, .num 0]) =
    .error (some (insufficientMsg 0 1)) := by
  simp [validateData, pyIsNum]
  norm_num [NO_DATA]
example : get_sli (.tup [.num 15, .num (-1)]) = some (1, 15, 0) := by
  simp [get_sli, normalizeNoData]
  norm_num [NO_DATA]
  rw [pyRound_eq_self 1 6 1000000 (by norm_num)]
example : get_sli (.tup [.num 5, .num 5]) = some (1 / 2, 5, 5) := by
  simp [get_sli, normalizeNoData]
  norm_num [NO_DATA]
  rw [pyRound_eq_self (1 / 2) 6 500000 (by norm_num)]

/-! ## Configuration data (SLO config, error budget policy step) -/

/-- The `slo_config["metadata"]` record: name plus free-form labels. -/
structure Metadata where
  name : String
  labels : List (String × String)
deriving DecidableEq, Repr

/-- The fields of `slo_config["spec"]` the report layer reads. -/
structure SLOSpec where
  description : String
  backend : String
  exporters : List String
  error_budget_policy : String := "default"
  goal : ℚ
deriving DecidableEq, Repr

/-- An SLO configuration (`slo_config`). -/
structure SLOConfig where
  metadata : Metadata
  spec : SLOSpec
deriving DecidableEq, Repr

/-- One step of an error budget policy. -/
structure PolicyStep where
  name : String
  window : ℤ
  burn_rate_threshold : ℚ
  message_alert : String
  message_ok : String
deriving DecidableEq, Repr

/-! ## The `SLOReport` dataclass and `SLOReport.build` -/

/-- The `SLOReport` dataclass fields, in source declaration order. Fields
that `__init__` leaves unset on invalid reports hold their dataclass
defaults here (they are never serialized for invalid reports, see
`to_json`). `timestamp_human` keeps the `utils.get_human_time` output
abstract (an injective rendering; no claim concerns the date format). -/
structure SLOReportT where
  name : String
  description : String
  goal : ℚ
  backend : String
  gap : ℚ := 0
  error_budget_policy_step_name : String
  error_budget_target : ℚ := 0
  error_budget_measurement : ℚ := 0
  error_budget_burn_rate : ℚ := 0
  error_budget_burn_rate_threshold : ℚ
  error_budget_minutes : ℚ := 0
  error_budget_remaining_minutes : ℚ := 0
  error_minutes : ℚ := 0
  valid : Bool
  timestamp : ℤ
  timestamp_human : String
  window : ℤ
  alert : Bool := false
  consequence_message : String := ""
  exporters : List String
  error_budget_policy : String
  sli_measurement : ℚ := 0
  events_count : ℤ := 0
  bad_events_count : ℤ := 0
  good_events_count : ℤ := 0
  metadata : Metadata
  errors : List String
deriving DecidableEq, Repr

/-- Stand-in for `utils.get_human_time`: the claims never inspect the
rendered date, so the timestamp is rendered with `toString`. -/
def get_human_time (timestamp : ℤ) : String := toString timestamp

/-- The fields computed by `SLOReport.build`. -/
structure BuiltFields where
  sli_measurement : ℚ
  good_events_count : ℤ
  bad_events_count : ℤ
  events_count : ℤ
  gap : ℚ
  error_budget_target : ℚ
  error_budget_measurement : ℚ
  error_budget_burn_rate : ℚ
  error_budget_remaining_minutes : ℚ
  error_budget_minutes : ℚ
  error_minutes : ℚ
  alert : Bool
  consequence_message : String
deriving DecidableEq, Repr

/-- Fixed consequence message in `report.py` for a missed window below the
alerting threshold. -/
def missedWindowMsg : String :=
  "Missed for this measurement window, but not enough to alert"

/-- Embedding of `SLOReport.build(step, data)`: the SLI / error budget / burn rate
computations. `none` embeds an uncaught exception escaping `get_sli`. -/
def buildFields (step : PolicyStep) (goal : ℚ) (window : ℤ) (data : BackendData) :
    Option BuiltFields :=
  match get_sli data with
  | none => none
  | some (sli, good_count, bad_count) =>
    let gap := sli - goal
    let eb_target := 1 - goal
    let eb_value := 1 - sli
    let eb_remaining_minutes := (window : ℚ) * gap / 60
    let eb_target_minutes := (window : ℚ) * eb_target / 60
    let eb_minutes := (window : ℚ) * eb_value / 60
    let eb_burn_rate := if eb_target = 0 then 0 else pyRound (eb_value / eb_target) 1
    let alert : Bool := eb_burn_rate > step.burn_rate_threshold
    let consequence_message :=
      if alert then step.message_alert
      else if eb_burn_rate ≤ 1 then step.message_ok
      else missedWindowMsg
    some {
      sli_measurement := sli
      good_events_count := pyInt good_count
      bad_events_count := pyInt bad_count
      events_count := pyInt (good_count + bad_count)
      gap := gap
      error_budget_target := eb_target
      error_budget_measurement := eb_value
      error_budget_burn_rate := eb_burn_rate
      error_budget_remaining_minutes := eb_remaining_minutes
      error_budget_minutes := eb_target_minutes
      error_minutes := eb_minutes
      alert := alert
      consequence_message := consequence_message }

/-! ## `SLOReport.__init__`: construct, validate, build, post-validate -/

/-- The report as `__init__` sets it up before the backend result is
examined (identity, step and timing fields; `valid = True`, empty error
list except for backend faults already recorded by `run_backend`). -/
def defaultReport (config : SLOConfig) (step : PolicyStep) (timestamp : ℤ)
    (backendErrors : List String) : SLOReportT := {
  name := config.metadata.name
  description := config.spec.description
  goal := config.spec.goal
  backend := config.spec.backend
  error_budget_policy_step_name := step.name
  error_budget_burn_rate_threshold := step.burn_rate_threshold
  valid := true
  timestamp := timestamp
  timestamp_human := get_human_time timestamp
  window := step.window
  exporters := config.spec.exporters
  error_budget_policy := config.spec.error_budget_policy
  metadata := config.metadata
  errors := backendErrors }

/-- Copy the `SLOReport.build` outputs into the dataclass
(`__set_fields`). -/
def setBuilt (r : SLOReportT) (b : BuiltFields) : SLOReportT := { r with
  sli_measurement := b.sli_measurement
  good_events_count := b.good_events_count
  bad_events_count := b.bad_events_count
  events_count := b.events_count
  gap := b.gap
  error_budget_target := b.error_budget_target
  error_budget_measurement := b.error_budget_measurement
  error_budget_burn_rate := b.error_budget_burn_rate
  error_budget_remaining_minutes := b.error_budget_remaining_minutes
  error_budget_minutes := b.error_budget_minutes
  error_minutes := b.error_minutes
  alert := b.alert
  consequence_message := b.consequence_message }

/-- Message from `report.py`: post-validation failure. -/
def postValidateMsg (v : ℚ) : String :=
  "SLI is not between 0 and 1 (value = " ++ toString v ++ ")"

/-- Embedding of `SLOReport._post_validate`: the built SLI must lie in `[0, 1]`. -/
def post_validate_ok (r : SLOReportT) : Bool := 0 ≤ r.sli_measurement ∧ r.sli_measurement ≤ 1

/-- Embedding of `SLOReport.__init__` from the backend result onward: run `_validate`,
then (if valid) `build`, then `_post_validate`. The backend invocation
itself is represented by its outcome: `data` is what `run_backend`
returned and `backendErrors` what it already appended to `self.errors`
(the formatted traceback when the backend raised, else nothing).
`none` embeds an uncaught exception escaping `build`. -/
def makeReport (config : SLOConfig) (step : PolicyStep) (timestamp : ℤ)
    (minValidEvents : ℚ) (backendErrors : List String) (data : BackendData) :
    Option SLOReportT :=
  let base := defaultReport config step timestamp backendErrors
  match validateData minValidEvents data with
  | .error msg => some { base with valid := false, errors := base.errors ++ msg.toList }
  | .ok _ =>
    match buildFields step config.spec.goal step.window data with
    | none => none
    | some b =>
      let r := setBuilt base b
      if post_validate_ok r then some r
      else some { r with valid := false, errors := r.errors ++ [postValidateMsg r.sli_measurement] }

/-! ## `SLOReport.to_json` -/

/-- A JSON value occurring in a serialized report. -/
inductive JVal where
  | num (q : ℚ)
  | int (n : ℤ)
  | str (s : String)
  | bool (b : Bool)
  | strList (xs : List String)
  | meta (m : Metadata)
deriving DecidableEq, Repr

/-- A serialized report: an ordered record of key / value pairs. -/
abbrev JRec := List (String × JVal)

/-- Embedding of `SLOReport.to_json`: an invalid report serializes to identity +
errors + step name + the valid flag only; a valid report serializes all
dataclass fields (`asdict`), in declaration order. -/
def to_json (r : SLOReportT) : JRec :=
  if r.valid = false then
    [("metadata", .meta r.metadata),
     ("errors", .strList r.errors),
     ("error_budget_policy_step_name", .str r.error_budget_policy_step_name),
     ("valid", .bool r.valid)]
  else
    [("name", .str r.name),
     ("description", .str r.description),
     ("goal", .num r.goal),
     ("backend", .str r.backend),
     ("gap", .num r.gap),
     ("error_budget_policy_step_name", .str r.error_budget_policy_step_name),
     ("error_budget_target", .num r.error_budget_target),
     ("error_budget_measurement", .num r.error_budget_measurement),
     ("error_budget_burn_rate", .num r.error_budget_burn_rate),
     ("error_budget_burn_rate_threshold", .num r.error_budget_burn_rate_threshold),
     ("error_budget_minutes", .num r.error_budget_minutes),
     ("error_budget_remaining_minutes", .num r.error_budget_remaining_minutes),
     ("error_minutes", .num r.error_minutes),
     ("valid", .bool r.valid),
     ("timestamp", .int r.timestamp),
     ("timestamp_human", .str r.timestamp_human),
     ("window", .int r.window),
     ("alert", .bool r.alert),
     ("consequence_message", .str r.consequence_message),
     ("exporters", .strList r.exporters),
     ("error_budget_policy", .str r.error_budget_policy),
     ("sli_measurement", .num r.sli_measurement),
     ("events_count", .int r.events_count),
     ("bad_events_count", .int r.bad_events_count),
     ("good_events_count", .int r.good_events_count),
     ("metadata", .meta r.metadata),
     ("errors", .strList r.errors)]

/-! ## Report accessors used by `compute.py`

`compute.py` calls `report.get_window()`, `report.get_badeventscount()`
and `report.get_windowname()`; their definitions are not part of
`report.py` in this tree, so they are modelled from the spec. -/

/-- Modelled from the spec: `SLOReport.get_window`, missing from
`report.py` — §4.5 indexes each step's report "by window value", so the
accessor returns the report's `window` field (the step's window in
seconds). -/
def get_window (r : SLOReportT) : ℤ := r.window

/-- Modelled from the spec: `SLOReport.get_badeventscount`, missing from
`report.py` — §4.5's consistency check walks "bad-event counts", so the
accessor returns the report's `bad_events_count` field. -/
def get_badeventscount (r : SLOReportT) : ℤ := r.bad_events_count

/-- Modelled from the spec: `SLOReport.get_windowname`, missing from
`report.py` — the §4.5 warning names the two windows, so the accessor
returns the window's name: the error budget policy step name. -/
def get_windowname (r : SLOReportT) : String := r.error_budget_policy_step_name

/-! ## `compute.py`: the per-step loop -/

/-- One step's worth of input to the `compute` loop: the policy step
plus the outcome of its backend invocation (the raw data, and any error
string `run_backend` recorded for a raised backend fault). -/
structure StepInput where
  step : PolicyStep
  backendErrors : List String
  data : BackendData
deriving DecidableEq, Repr

/-- Termination measure for `bumpKey`: when `w` occurs in `keys`, the
keys at or above `w + 1` are strictly fewer than those at or above
`w`. -/
theorem length_filter_le_lt (keys : List ℤ) (w : ℤ) (h : w ∈ keys) :
    (keys.filter fun k => w + 1 ≤ k).length < (keys.filter fun k => w ≤ k).length := by
  induction keys with
  | nil => simp at h
  | cons a l ih =>
    have hsub : (l.filter fun k => w + 1 ≤ k).length ≤ (l.filter fun k => w ≤ k).length := by
      refine List.Sublist.length_le (List.monotone_filter_right l ?_)
      intro x hx
      simp only [decide_eq_true_eq] at hx ⊢
      omega
    rcases List.mem_cons.mp h with rfl | ha
    · simp only [List.filter_cons]
      have h1 : (decide (w + 1 ≤ w)) = false := by simp
      have h2 : (decide (w ≤ w)) = true := by simp
      rw [h1, h2]
      simpa using Nat.lt_succ_of_le hsub
    · simp only [List.filter_cons]
      by_cases hc1 : w + 1 ≤ a
      · have hc2 : w ≤ a := by omega
        simp only [decide_eq_true_eq, hc1, hc2, if_true]
        simpa using Nat.succ_lt_succ (ih ha)
      · by_cases hc2 : w ≤ a
        · simp only [decide_eq_true_eq, hc1, hc2, if_false, if_true]
          simpa using Nat.lt_succ_of_lt (ih ha)
        · simp only [decide_eq_true_eq, hc1, hc2, if_false]
          exact ih ha

/-- The loop `while window in badevents: window = window + 1` — bump a window
index key until it is not already used. -/
def bumpKey (keys : List ℤ) (w : ℤ) : ℤ :=
  if h : w ∈ keys then bumpKey keys (w + 1) else w
termination_by (keys.filter fun k => w ≤ k).length
decreasing_by
  exact length_filter_le_lt keys w h

/-- The mutable state of the `compute` loop: the returned report list
(each entry tagged with its step index, standing for Python object
identity), and the three window-keyed maps (insertion-ordered
association lists, like Python dicts). -/
structure ComputeState where
  reports : List (ℕ × JRec)
  badevents : List (ℤ × ℤ)
  reportswindow : List (ℤ × ℕ)
  reportswindowname : List (ℤ × String)
deriving DecidableEq, Repr

/-- Tag the elements of a list with consecutive indices starting at `i`
(models Python object identity of the per-step report dicts). -/
def tagFrom (i : ℕ) : List α → List (ℕ × α)
  | [] => []
  | x :: xs => (i, x) :: tagFrom (i + 1) xs

/-- The per-step loop of `compute` (compute.py lines 73-106): build one
`SLOReport` per step in order; append its JSON to the report list
(invalid reports too); for valid reports (outside delete mode) index the
JSON by (bumped) window, and record its bad-event count and window name.
`none` embeds an uncaught exception escaping a report construction.
`lastdata` / `lastwindow` threading is represented by each step's
backend outcome being an input. -/
def computeSteps (config : SLOConfig) (timestamp : ℤ) (minValidEvents : ℚ)
    (delete : Bool) : List StepInput → ℕ → ComputeState → Option ComputeState
  | [], _, st => some st
  | si :: rest, idx, st =>
    match makeReport config si.step timestamp minValidEvents si.backendErrors si.data with
    | none => none
    | some report =>
      let json := to_json report
      if report.valid = false then
        computeSteps config timestamp minValidEvents delete rest (idx + 1)
          { st with reports := st.reports ++ [(idx, json)] }
      else if delete then
        computeSteps config timestamp minValidEvents delete rest (idx + 1) st
      else
        let window := bumpKey (st.badevents.map Prod.fst) (get_window report)
        computeSteps config timestamp minValidEvents delete rest (idx + 1)
          { reports := st.reports ++ [(idx, json)]
            badevents := st.badevents ++ [(window, get_badeventscount report)]
            reportswindow := st.reportswindow ++ [(window, idx)]
            reportswindowname := st.reportswindowname ++ [(window, get_windowname report)] }

/-! ## `compute.py`: the cross-window consistency check (lines 108-129) -/

/-- Insert into a sorted list (ascending). -/
def insSorted (x : ℤ) : List ℤ → List ℤ
  | [] => [x]
  | y :: ys => if x ≤ y then x :: y :: ys else y :: insSorted x ys

/-- Embedding of `sorted(badevents)`: the keys of the window index in ascending
order. -/
def sortKeys (l : List ℤ) : List ℤ := l.foldr insSorted []

/-- The walk over the sorted window keys: thread `lastbad` / `lastkey`
(both initially -1); whenever the previous window's bad count is
nonnegative and strictly exceeds the current window's, record the
previous key (`del reportswindow[lastkey]`). Returns the keys deleted
from the export batch. -/
def consistencyGo (bad : List (ℤ × ℤ)) :
    List ℤ → ℤ → ℤ → List ℤ → List ℤ
  | [], _, _, deleted => deleted
  | k :: ks, lastbad, lastkey, deleted =>
    let bk := (List.lookup k bad).getD 0
    if lastbad < 0 then consistencyGo bad ks bk k deleted
    else if lastbad > bk then consistencyGo bad ks bk k (deleted ++ [lastkey])
    else consistencyGo bad ks bk k deleted

/-- The window keys the consistency check deletes from the export
batch. -/
def consistencyDeletions (bad : List (ℤ × ℤ)) : List ℤ :=
  consistencyGo bad (sortKeys (bad.map Prod.fst)) (-1) (-1) []

/-- Apply the consistency check to the loop state: remove the deleted
keys from the export batch (`reportswindow`); the returned report list
is untouched. -/
def applyConsistency (st : ComputeState) : ComputeState :=
  let dels := consistencyDeletions st.badevents
  { st with reportswindow := st.reportswindow.filter fun p => ¬ dels.contains p.1 }

/-! ## `compute.export` and the export phase -/

/-- An exporter configuration as assembled by `utils.get_exporters`
(`name` and `class` keys plus the remaining config entries). -/
structure ExporterCfg where
  name : String
  cls : String
  cfg : List (String × String)
deriving DecidableEq, Repr

/-- Message from `compute.py`: one exporter's failure, formatted from the
caught exception text. -/
def exporterFailMsg (cls name traceback : String) : String :=
  cls ++ "Exporter \x22" ++ name ++ "\x22 failed. | " ++ traceback

/-- Message from `compute.py`: the exporter list is empty. -/
def noExportersMsg : String := "No exporters were found."

/-- The `ImportError` text raised when `utils.get_exporter_cls` returns
`None`. -/
def exporterNotFoundTraceback : String := "Exporter not found in shared config."

/-- Embedding of `compute.export(data, exporters)`: the list of export errors
appended to the report. The dynamic class import and the delivery call
are the two external effects; they are represented by `importOk`
(whether `get_exporter_cls` resolves the class) and `send` (the
formatted traceback when the exporter's `export` call raises, keyed by
exporter name). Every fault is caught and formatted; none escapes
(`raise_on_error` defaults to `False`). -/
def exportErrors (importOk : String → Bool) (send : String → Option String)
    (exporters : List ExporterCfg) : List String :=
  (if exporters.isEmpty then [noExportersMsg] else []) ++
  exporters.foldr (fun e acc =>
    (if importOk e.cls then
      ((send e.name).map (exporterFailMsg e.cls e.name)).toList
     else [exporterFailMsg e.cls e.name exporterNotFoundTraceback]) ++ acc) []

/-- Append export errors to the `errors` entry of a serialized report
(`report["errors"].extend(errors)`). -/
def extendErrors (j : JRec) (es : List String) : JRec :=
  j.map fun kv =>
    if kv.1 = "errors" then
      (kv.1, match kv.2 with
             | .strList xs => .strList (xs ++ es)
             | v => v)
    else kv

/-- The export phase of `compute` (lines 131-134): when exporting is
enabled, every report still in the export batch gets the export errors
appended — in the returned report list too, since the batch holds the
same JSON objects (here: the same step tags). -/
def applyExport (doExport : Bool) (importOk : String → Bool)
    (send : String → Option String) (exporters : List ExporterCfg)
    (st : ComputeState) : ComputeState :=
  if doExport then
    let idxs := st.reportswindow.map Prod.snd
    let errs := exportErrors importOk send exporters
    { st with reports := st.reports.map fun p =>
        if idxs.contains p.1 then (p.1, extendErrors p.2 errs) else p }
  else st

/-- Embedding of `compute.compute`: run the per-step loop, the cross-window
consistency check, then the export phase. The returned report list is
`(·.reports)`; `(·.reportswindow)` is the export batch that survived
the consistency check. -/
def compute (config : SLOConfig) (timestamp : ℤ) (minValidEvents : ℚ)
    (delete doExport : Bool) (importOk : String → Bool)
    (send : String → Option String) (exporters : List ExporterCfg)
    (steps : List StepInput) : Option ComputeState :=
  (computeSteps config timestamp minValidEvents delete steps 0 ⟨[], [], [], []⟩).map
    fun st => applyExport doExport importOk send exporters (applyConsistency st)

/-! ## `utils.py`: backend / exporter resolution (`get_backend`,
`get_exporters`) and the CLI loop over SLO definitions -/

/-- Embedding of `utils.capitalize`: upper-case the first alphabetic character. -/
def capitalizeFirst (s : String) : String :=
  match s.toList with
  | [] => ""
  | c :: rest => String.mk (c.toUpper :: rest)

/-- Embedding of `utils.snake_to_caml`: replace each `_x` by `X` (left to right,
non-overlapping, like `re.sub("_.", ...)`). -/
def snakeToCamlChars : List Char → List Char
  | '_' :: c :: rest => c.toUpper :: snakeToCamlChars rest
  | c :: rest => c :: snakeToCamlChars rest
  | [] => []

/-- Embedding of `utils.snake_to_caml` on strings. -/
def snakeToCaml (s : String) : String := String.mk (snakeToCamlChars s.toList)

/-- Derive the `class` config entry from a backend / exporter name:
custom names (containing a dot) are kept; core names are the
capitalized CamlCase of the part before the first `/`. -/
def classOfName (name : String) : String :=
  if name.contains '.' then name
  else capitalizeFirst (snakeToCaml (((name.splitOn "/").headD name)))

/-- The parts of the slo-generator global config the resolution layer
reads: the `backends` and `exporters` maps. -/
structure GeneratorConfig where
  backends : List (String × List (String × String))
  exporters : List (String × List (String × String))
deriving DecidableEq, Repr

/-- Embedding of `utils.get_exporters(config, spec)`: look each exporter name up in
the config; an unknown name is logged and skipped — it contributes
nothing and surfaces no error. -/
def get_exporters (config : GeneratorConfig) : List String → List ExporterCfg
  | [] => []
  | name :: rest =>
    match List.lookup name config.exporters with
    | none => get_exporters config rest
    | some data => { name := name, cls := classOfName name, cfg := data } ::
        get_exporters config rest

/-- Embedding of `utils.get_backend(config, spec)`: look the spec's backend name up
in the config; an unknown name logs an error and calls `sys.exit(0)`,
embedded as `.error 0` — a `SystemExit` that terminates the whole
process. -/
def get_backend (config : GeneratorConfig) (specBackend : String) :
    Except ℕ (String × String × List (String × String)) :=
  match List.lookup specBackend config.backends with
  | none => .error 0
  | some data => .ok (specBackend, classOfName specBackend, data)

/-- The identifiers one SLO definition carries into config resolution. -/
structure SLODefLite where
  name : String
  backend : String
  exporters : List String
deriving DecidableEq, Repr

/-- The `cli.compute` loop over SLO definitions: each definition's run
resolves its exporters (unknown ones silently skipped) and its backend
(unknown one exits the process, embedded as `.error`), then computes
its reports (abstracted here to the resolved exporter list — the report
computation itself is `compute`). A `SystemExit` aborts the whole loop:
no later definition is processed. -/
def runAllDefinitions (config : GeneratorConfig) :
    List SLODefLite → Except ℕ (List (String × List ExporterCfg))
  | [] => .ok []
  | d :: rest =>
    let exps := get_exporters config d.exporters
    match get_backend config d.backend with
    | .error code => .error code
    | .ok _ =>
      match runAllDefinitions config rest with
      | .error code => .error code
      | .ok acc => .ok ((d.name, exps) :: acc)

/-! ## Shared helper lemmas -/

/-- Python `int()` of an exact integer is that integer. -/
theorem pyInt_intCast (z : ℤ) : pyInt (z : ℚ) = z := by
  unfold pyInt
  by_cases hz : (z : ℚ) < 0
  · rw [if_pos hz, ← Int.cast_neg, Int.floor_intCast]; ring
  · rw [if_neg hz, Int.floor_intCast]

/-- A validated pair of counts has a positive normalized total: the sum
of the raw counts is at least `minValidEvents ≥ 1` and they are not both
`NO_DATA`, so replacing `NO_DATA` by 0 leaves a positive total. -/
theorem validated_pair_denom_pos (mv g b : ℚ) (hmv : 1 ≤ mv)
    (h : validateData mv (.tup [.num g, .num b]) = .ok ()) :
    0 < normalizeNoData g + normalizeNoData b := by
  simp only [validateData, pyIsNum] at h
  split_ifs at h with h1 h2 h3 h4
  have hnd : ¬(g = NO_DATA ∧ b = NO_DATA) := h3
  have hsum : mv ≤ g + b := not_lt.mp h4
  unfold normalizeNoData
  unfold NO_DATA at hnd ⊢
  by_cases hg : g = -1 <;> by_cases hb : b = -1
  · exact absurd ⟨hg, hb⟩ hnd
  · subst hg; rw [if_pos rfl, if_neg hb]; linarith
  · subst hb; rw [if_neg hg, if_pos rfl]; linarith
  · rw [if_neg hg, if_neg hb]; linarith

/-- On a validated pair, `get_sli` does not divide by zero and returns
the normalized counts together with the rounded ratio. -/
theorem get_sli_of_validated (mv g b : ℚ) (hmv : 1 ≤ mv)
    (h : validateData mv (.tup [.num g, .num b]) = .ok ()) :
    get_sli (.tup [.num g, .num b]) =
      some (pyRound (normalizeNoData g / (normalizeNoData g + normalizeNoData b)) 6,
        normalizeNoData g, normalizeNoData b) := by
  have hpos := validated_pair_denom_pos mv g b hmv h
  rw [get_sli]
  rw [if_neg (ne_of_gt hpos)]

/-- A sample policy step used by concrete witnesses. -/
def sampleStep : PolicyStep :=
  { name := "1 hour", window := 3600, burn_rate_threshold := 1,
    message_alert := "Page the on-call", message_ok := "Within budget" }

/-- The fields `build` computes for `sampleStep`, goal 0.9 and a scalar
backend result of 1. -/
def sampleBuilt : BuiltFields :=
  { sli_measurement := 1, good_events_count := -1, bad_events_count := -1,
    events_count := -2, gap := 1 / 10, error_budget_target := 1 / 10,
    error_budget_measurement := 0, error_budget_burn_rate := 0,
    error_budget_remaining_minutes := 6, error_budget_minutes := 6,
    error_minutes := 0, alert := false, consequence_message := "Within budget" }

/-- Concrete evaluation of `build` on a perfect scalar SLI, used by the
witnesses of the build-level invariants. -/
theorem sampleBuild_eval :
    buildFields sampleStep (9 / 10) 3600 (.num 1) = some sampleBuilt := by
  rw [buildFields, get_sli, pyRound_eq_self 1 6 1000000 (by norm_num)]
  have hr0 : pyRound ((1 - 1) / (1 - 9 / 10)) 1 = 0 := by
    rw [show ((1 : ℚ) - 1) / (1 - 9 / 10) = 0 by norm_num]
    exact pyRound_eq_self 0 1 0 (by norm_num)
  simp only [sampleBuilt, sampleStep, NO_DATA, hr0]
  norm_num [pyInt_intCast, missedWindowMsg]
  constructor
  · rw [show ((-1 : ℚ)) = ((-1 : ℤ) : ℚ) by norm_num, pyInt_intCast]
  · rw [show ((-2 : ℚ)) = ((-2 : ℤ) : ℚ) by norm_num, pyInt_intCast]

/-! ## Claim theorems -/

/-- C3: for every built report, the `alert` field is true exactly when
the stored `error_budget_burn_rate` strictly exceeds the step's
`burn_rate_threshold`. -/
theorem c3_alert_iff_burn_rate_over_threshold (step : PolicyStep) (goal : ℚ)
    (window : ℤ) (data : BackendData) (b : BuiltFields)
    (h : buildFields step goal window data = some b) :
    b.alert = true ↔ b.error_budget_burn_rate > step.burn_rate_threshold := by
  rw [buildFields] at h
  cases hs : get_sli data with
  | none => rw [hs] at h; exact Option.noConfusion h
  | some t =>
    obtain ⟨sli, good, bad⟩ := t
    rw [hs] at h
    simp only [Option.some.injEq] at h
    subst h
    simp [decide_eq_true_eq]

/-- Witness for C3 at a concrete built report. -/
theorem c3_witness :
    buildFields sampleStep (9 / 10) 3600 (.num 1) = some sampleBuilt ∧
      (sampleBuilt.alert = true ↔
        sampleBuilt.error_budget_burn_rate > sampleStep.burn_rate_threshold) :=
  ⟨sampleBuild_eval,
   c3_alert_iff_burn_rate_over_threshold sampleStep (9 / 10) 3600 (.num 1)
     sampleBuilt sampleBuild_eval⟩

/-- C4: for every built report, the stored burn rate is
`round(error_budget_measurement / error_budget_target, 1)` when the
stored target is nonzero and `0` when it is zero; with `goal = 1` the
target is zero, so the burn rate is 0 and the division branch is never
taken. -/
theorem c4_burn_rate_formula (step : PolicyStep) (goal : ℚ)
    (window : ℤ) (data : BackendData) (b : BuiltFields)
    (h : buildFields step goal window data = some b) :
    (b.error_budget_target = 0 → b.error_budget_burn_rate = 0) ∧
    (b.error_budget_target ≠ 0 →
      b.error_budget_burn_rate =
        pyRound (b.error_budget_measurement / b.error_budget_target) 1) ∧
    (goal = 1 → b.error_budget_burn_rate = 0) := by
  rw [buildFields] at h
  cases hs : get_sli data with
  | none => rw [hs] at h; exact Option.noConfusion h
  | some t =>
    obtain ⟨sli, good, bad⟩ := t
    rw [hs] at h
    simp only [Option.some.injEq] at h
    subst h
    refine ⟨fun h0 => ?_, fun h0 => ?_, fun h0 => ?_⟩
    · simp only at h0 ⊢
      rw [if_pos h0]
    · simp only at h0 ⊢
      rw [if_neg h0]
    · subst h0
      simp

/-- Witness for C4 at a concrete built report. -/
theorem c4_witness :
    buildFields sampleStep (9 / 10) 3600 (.num 1) = some sampleBuilt ∧
      (sampleBuilt.error_budget_target ≠ 0 →
        sampleBuilt.error_budget_burn_rate =
          pyRound (sampleBuilt.error_budget_measurement / sampleBuilt.error_budget_target) 1) :=
  ⟨sampleBuild_eval,
   (c4_burn_rate_formula sampleStep (9 / 10) 3600 (.num 1) sampleBuilt
     sampleBuild_eval).2.1⟩

/-- C10: when a pair of counts passes validation with a minimum-valid-
events threshold of at least 1, the normalized total is strictly
positive, so `get_sli` never divides by zero (it returns the rounded
ratio and the normalized counts). -/
theorem c10_no_division_by_zero (mv g b : ℚ) (hmv : 1 ≤ mv)
    (h : validateData mv (.tup [.num g, .num b]) = .ok ()) :
    0 < normalizeNoData g + normalizeNoData b ∧
    get_sli (.tup [.num g, .num b]) =
      some (pyRound (normalizeNoData g / (normalizeNoData g + normalizeNoData b)) 6,
        normalizeNoData g, normalizeNoData b) :=
  ⟨validated_pair_denom_pos mv g b hmv h, get_sli_of_validated mv g b hmv h⟩

/-- Witness for C10 at the pair `(15, NO_DATA)` with the default
threshold 1. -/
theorem c10_witness :
    0 < normalizeNoData 15 + normalizeNoData (-1) ∧
    get_sli (.tup [.num 15, .num (-1)]) =
      some (pyRound (normalizeNoData 15 / (normalizeNoData 15 + normalizeNoData (-1))) 6,
        normalizeNoData 15, normalizeNoData (-1)) :=
  c10_no_division_by_zero 1 15 (-1) (by norm_num)
    (by simp [validateData, pyIsNum]; norm_num [NO_DATA])

/-- C7: every report constructed with `valid = true` carries an SLI
measurement in `[0, 1]`: post-validation checked the built SLI, and a
failure would have surfaced `valid = false`. -/
theorem c7_valid_reports_have_sli_in_range (config : SLOConfig) (step : PolicyStep)
    (ts : ℤ) (mv : ℚ) (be : List String) (data : BackendData) (r : SLOReportT)
    (h : makeReport config step ts mv be data = some r) (hv : r.valid = true) :
    0 ≤ r.sli_measurement ∧ r.sli_measurement ≤ 1 := by
  simp only [makeReport] at h
  cases hV : validateData mv data with
  | error msg =>
    rw [hV] at h
    simp only [Option.some.injEq] at h
    subst h
    simp at hv
  | ok u =>
    rw [hV] at h
    simp only [] at h
    cases hB : buildFields step config.spec.goal step.window data with
    | none => rw [hB] at h; exact Option.noConfusion h
    | some b =>
      rw [hB] at h
      simp only [] at h
      by_cases hp : post_validate_ok (setBuilt (defaultReport config step ts be) b) = true
      · rw [if_pos hp] at h
        simp only [Option.some.injEq] at h
        subst h
        simpa [post_validate_ok] using hp
      · rw [if_neg hp] at h
        simp only [Option.some.injEq] at h
        subst h
        simp at hv

/-- Witness for C7: a valid report built from a perfect scalar SLI. -/
theorem c7_witness :
    ∃ r, makeReport ⟨⟨"svc", []⟩, ⟨"d", "b", [], "default", 9 / 10⟩⟩ sampleStep 0 1 []
        (.num 1) = some r ∧ r.valid = true ∧ 0 ≤ r.sli_measurement ∧ r.sli_measurement ≤ 1 := by
  have hV : validateData 1 (.num 1) = .ok () := by
    simp [validateData]; norm_num [NO_DATA]
  have hB : buildFields sampleStep (9 / 10) sampleStep.window (.num 1) = some sampleBuilt := by
    rw [show sampleStep.window = 3600 from rfl]
    exact sampleBuild_eval
  have hmk : makeReport ⟨⟨"svc", []⟩, ⟨"d", "b", [], "default", 9 / 10⟩⟩ sampleStep 0 1 []
      (.num 1) =
      some (setBuilt (defaultReport ⟨⟨"svc", []⟩, ⟨"d", "b", [], "default", 9 / 10⟩⟩
        sampleStep 0 []) sampleBuilt) := by
    simp only [makeReport, hV, hB]
    rw [if_pos]
    simp [post_validate_ok, setBuilt, sampleBuilt]
  refine ⟨_, hmk, rfl, ?_⟩
  exact c7_valid_reports_have_sli_in_range _ _ _ _ _ _ _ hmk rfl

/-- C8: a report with `valid = false` serializes to a record holding
exactly the identity metadata, the errors list, the policy step name
and the valid flag — no SLI or error-budget fields. -/
theorem c8_invalid_serialization (r : SLOReportT) (h : r.valid = false) :
    (to_json r).map Prod.fst =
      ["metadata", "errors", "error_budget_policy_step_name", "valid"] := by
  simp [to_json, h]

/-- A concrete invalid report for the C8 witness. -/
def sampleInvalidReport : SLOReportT :=
  { name := "svc", description := "d", goal := 9 / 10, backend := "b",
    error_budget_policy_step_name := "1 hour", error_budget_burn_rate_threshold := 1,
    valid := false, timestamp := 0, timestamp_human := "0", window := 3600,
    exporters := [], error_budget_policy := "default",
    metadata := { name := "svc", labels := [] }, errors := ["Backend returned NO_DATA (-1)."] }

/-- Witness for C8 at a concrete invalid report. -/
theorem c8_witness :
    sampleInvalidReport.valid = false ∧
    (to_json sampleInvalidReport).map Prod.fst =
      ["metadata", "errors", "error_budget_policy_step_name", "valid"] :=
  ⟨rfl, c8_invalid_serialization sampleInvalidReport rfl⟩

/-- A minimal SLO configuration parametrized by the goal. -/
def sampleConfig (goal : ℚ) : SLOConfig :=
  ⟨⟨"svc", []⟩, ⟨"d", "b", [], "default", goal⟩⟩

/-- The `sampleStep` step with a custom burn rate threshold. -/
def stepWithThreshold (t : ℚ) : PolicyStep := { sampleStep with burn_rate_threshold := t }

/-- Evaluation of the report pipeline on the pair `(15, NO_DATA)`: the
report is valid with SLI 1, the returned good count is 15, the returned
bad count is the normalized 0, and no alert fires for any nonnegative
threshold. -/
theorem makeReport_15_nodata (goal t : ℚ) (ht : 0 ≤ t) :
    ∃ r, makeReport (sampleConfig goal) (stepWithThreshold t) 0 1 []
        (.tup [.num 15, .num NO_DATA]) = some r ∧
      r.valid = true ∧ r.sli_measurement = 1 ∧ r.good_events_count = 15 ∧
      r.bad_events_count = 0 ∧ r.alert = false := by
  have hV : validateData 1 (.tup [.num 15, .num NO_DATA]) = .ok () := by
    simp [validateData, pyIsNum]
    norm_num [NO_DATA]
  have hsli : get_sli (.tup [.num 15, .num NO_DATA]) = some (1, 15, 0) := by
    simp [get_sli, normalizeNoData]
    norm_num [NO_DATA]
    rw [pyRound_eq_self 1 6 1000000 (by norm_num)]
  have hbr0 : (if (1 : ℚ) - goal = 0 then (0 : ℚ) else pyRound ((1 - 1) / (1 - goal)) 1) = 0 := by
    split_ifs with h
    · rfl
    · rw [show ((1 : ℚ) - 1) / (1 - goal) = 0 by rw [sub_self, zero_div]]
      exact pyRound_eq_self 0 1 0 (by norm_num)
  have hgood : pyInt 15 = 15 := by
    rw [show (15 : ℚ) = ((15 : ℤ) : ℚ) by norm_num, pyInt_intCast]
  have hbad : pyInt 0 = 0 := by
    rw [show (0 : ℚ) = ((0 : ℤ) : ℚ) by norm_num, pyInt_intCast]
  have hev : pyInt (15 + 0) = 15 := by
    rw [show (15 + 0 : ℚ) = ((15 : ℤ) : ℚ) by norm_num, pyInt_intCast]
  have halert : decide ((0 : ℚ) > t) = false := decide_eq_false (not_lt.mpr ht)
  simp only [makeReport, hV, sampleConfig, stepWithThreshold, sampleStep]
  simp only [buildFields, hsli, hbr0, hgood, hbad, hev, halert]
  rw [if_pos]
  · exact ⟨_, rfl, rfl, rfl, rfl, rfl, rfl⟩
  · simp [post_validate_ok, setBuilt]

/-- C5 counterexample: on the pair `(good=15, bad=NO_DATA)` the SLI
computation returns a bad count of 0, not the `NO_DATA` value the
backend gave — the normalization is visible in the returned counts, not
confined to the division. -/
theorem c5_counterexample :
    get_sli (.tup [.num 15, .num NO_DATA]) = some (1, 15, 0) ∧ (0 : ℚ) ≠ NO_DATA := by
  constructor
  · simp [get_sli, normalizeNoData]
    norm_num [NO_DATA]
    rw [pyRound_eq_self 1 6 1000000 (by norm_num)]
  · norm_num [NO_DATA]

/-- C5 (amended): on a validated pair the SLI computation replaces
`NO_DATA` elements by 0 both for the division and in the returned
counts — `sli = round(good' / (good' + bad'), 6)` with the normalized
counts returned; `(good=15, bad=NO_DATA)` yields a valid report with
`sli = 1`, counts `(15, 0)` and no alert for any threshold ≥ 0. -/
theorem c5_sli_normalized_counts :
    (∀ mv g b : ℚ, 1 ≤ mv → validateData mv (.tup [.num g, .num b]) = .ok () →
      get_sli (.tup [.num g, .num b]) =
        some (pyRound (normalizeNoData g / (normalizeNoData g + normalizeNoData b)) 6,
          normalizeNoData g, normalizeNoData b)) ∧
    (∀ goal t : ℚ, 0 ≤ t → ∃ r, makeReport (sampleConfig goal) (stepWithThreshold t) 0 1 []
        (.tup [.num 15, .num NO_DATA]) = some r ∧
      r.valid = true ∧ r.sli_measurement = 1 ∧ r.good_events_count = 15 ∧
      r.bad_events_count = 0 ∧ r.alert = false) :=
  ⟨fun mv g b hmv h => get_sli_of_validated mv g b hmv h,
   fun goal t ht => makeReport_15_nodata goal t ht⟩

/-- Witness for C5 at `(15, NO_DATA)`, goal 0.9 and threshold 1. -/
theorem c5_witness :
    get_sli (.tup [.num 15, .num (-1)]) =
      some (pyRound (normalizeNoData 15 / (normalizeNoData 15 + normalizeNoData (-1))) 6,
        normalizeNoData 15, normalizeNoData (-1)) ∧
    ∃ r, makeReport (sampleConfig (9 / 10)) (stepWithThreshold 1) 0 1 []
        (.tup [.num 15, .num NO_DATA]) = some r ∧
      r.valid = true ∧ r.sli_measurement = 1 ∧ r.good_events_count = 15 ∧
      r.bad_events_count = 0 ∧ r.alert = false :=
  ⟨c5_sli_normalized_counts.1 1 15 (-1) (by norm_num)
    (by simp [validateData, pyIsNum]; norm_num [NO_DATA]),
   c5_sli_normalized_counts.2 (9 / 10) 1 (by norm_num)⟩

/-- C6 counterexample: a backend result of `None` (a backend method
returning `None` without raising) fails validation and marks the report
invalid, but no error message is recorded — the report surfaces
`valid = false` with an empty `errors` list, contradicting "every
validation failure records a human-readable error message". -/
theorem c6_counterexample :
    (makeReport (sampleConfig (9 / 10)) sampleStep 0 1 [] .pynone).map
      (fun r => (r.valid, r.errors)) = some (false, []) := by
  simp [makeReport, validateData, defaultReport]

/-- C6 (amended): `_validate` applies its rules in the stated order with
the first failure winning — type check, then pair arity, then element
type (which also subsumes `None` elements), then all-`NO_DATA`, then
minimum valid events; for a scalar, `NO_DATA`; every failure except a
`None` result records its human-readable message, and every failure
marks the owning report invalid with exactly the recorded messages (a
`None` result adds no message). -/
theorem c6_validation_order :
    (∀ mv : ℚ, validateData mv .pynone = .error none) ∧
    (∀ (mv : ℚ) (t : String), validateData mv (.other t) = .error (some (typeMismatchMsg t))) ∧
    (∀ (mv : ℚ) (xs : List PyVal), xs.length ≠ 2 →
      validateData mv (.tup xs) = .error (some (arityMsg xs.length))) ∧
    (∀ (mv : ℚ) (g b : PyVal), ¬(pyIsNum g = true ∧ pyIsNum b = true) →
      validateData mv (.tup [g, b]) = .error (some elemTypeMsg)) ∧
    (∀ mv : ℚ, validateData mv (.tup [.num NO_DATA, .num NO_DATA]) =
      .error (some (noDataTupleMsg [.num NO_DATA, .num NO_DATA]))) ∧
    (∀ mv g b : ℚ, ¬(g = NO_DATA ∧ b = NO_DATA) → g + b < mv →
      validateData mv (.tup [.num g, .num b]) = .error (some (insufficientMsg (g + b) mv))) ∧
    (∀ mv g b : ℚ, ¬(g = NO_DATA ∧ b = NO_DATA) → ¬(g + b < mv) →
      validateData mv (.tup [.num g, .num b]) = .ok ()) ∧
    (∀ mv : ℚ, validateData mv (.num NO_DATA) = .error (some scalarNoDataMsg)) ∧
    (∀ mv q : ℚ, q ≠ NO_DATA → validateData mv (.num q) = .ok ()) ∧
    (∀ (config : SLOConfig) (step : PolicyStep) (ts : ℤ) (mv : ℚ)
      (be : List String) (data : BackendData) (msg : Option String),
      validateData mv data = .error msg →
      ∃ r, makeReport config step ts mv be data = some r ∧ r.valid = false ∧
        r.errors = be ++ msg.toList) := by
  refine ⟨fun mv => rfl, fun mv t => rfl, ?_, ?_, fun mv => by simp [validateData, pyIsNum],
    ?_, ?_, fun mv => by simp [validateData, pyIsNum], ?_, ?_⟩
  · intro mv xs hlen
    rcases xs with _ | ⟨a, _ | ⟨b, _ | ⟨c, rest⟩⟩⟩
    · rfl
    · rfl
    · simp at hlen
    · rfl
  · intro mv g b h
    simp only [validateData]
    rw [if_pos h]
  · intro mv g b h1 h2
    simp only [validateData, pyIsNum]
    split_ifs with hA hB
    all_goals simp_all
  · intro mv g b h1 h2
    simp only [validateData, pyIsNum]
    split_ifs with hA hB
    all_goals simp_all
  · intro mv q hq
    simp only [validateData]
    rw [if_neg hq]
  · intro config step ts mv be data msg hErr
    refine ⟨{ defaultReport config step ts be with
                valid := false
                errors := (defaultReport config step ts be).errors ++ msg.toList },
      ?_, rfl, ?_⟩
    · simp only [makeReport, hErr]
    · simp [defaultReport]

/-- Witness for C6: the arity, insufficient-events and valid-scalar
rules at concrete inputs. -/
theorem c6_witness :
    validateData 1 (.tup [.num 5]) = .error (some (arityMsg 1)) ∧
    validateData 1 (.tup [.num 0, .num 0]) = .error (some (insufficientMsg (0 + 0) 1)) ∧
    validateData 1 (.num (1 / 2)) = .ok () :=
  ⟨c6_validation_order.2.2.1 1 [.num 5] (by norm_num),
   c6_validation_order.2.2.2.2.2.1 1 0 0 (by norm_num [NO_DATA]) (by norm_num),
   c6_validation_order.2.2.2.2.2.2.2.2.1 1 (1 / 2) (by norm_num [NO_DATA])⟩

/-- A generator config knowing one backend and one exporter, for the C9
scenario. -/
def sampleGenConfig : GeneratorConfig :=
  { backends := [("prometheus", [("url", "http://localhost:9090")])],
    exporters := [("bigquery", [("project_id", "p")])] }

/-- C9 counterexample: referencing an unknown backend identifier does
not surface a recoverable configuration error — `sys.exit(0)` kills the
whole process, so a later SLO definition's run is aborted too (the loop
result is the process exit, with no reports for the healthy
definition); and referencing an unknown exporter identifier surfaces no
error at all — the exporter is silently skipped. -/
theorem c9_counterexample :
    runAllDefinitions sampleGenConfig
      [⟨"bad-def", "unknown_backend", []⟩, ⟨"good-def", "prometheus", []⟩] = .error 0 ∧
    get_exporters sampleGenConfig ["unknown_exporter"] = [] := by
  constructor <;> rfl

/-- C9 (amended): there is no recoverable `ConfigurationError`. A run
referencing an unknown backend identifier calls `sys.exit(0)`,
terminating the process and aborting every remaining definition's run;
a run referencing an unknown exporter identifier logs and skips that
exporter, surfacing nothing to the caller. -/
theorem c9_unknown_identifiers :
    (∀ (config : GeneratorConfig) (d : SLODefLite) (rest : List SLODefLite),
      List.lookup d.backend config.backends = none →
      runAllDefinitions config (d :: rest) = .error 0) ∧
    (∀ (config : GeneratorConfig) (name : String) (rest : List String),
      List.lookup name config.exporters = none →
      get_exporters config (name :: rest) = get_exporters config rest) := by
  constructor
  · intro config d rest h
    simp only [runAllDefinitions, get_backend, h]
  · intro config name rest h
    simp only [get_exporters, h]

/-- Witness for C9 at the sample configuration. -/
theorem c9_witness :
    runAllDefinitions sampleGenConfig [⟨"bad-def", "unknown_backend", []⟩] = .error 0 ∧
    get_exporters sampleGenConfig ["unknown_exporter", "bigquery"] =
      get_exporters sampleGenConfig ["bigquery"] :=
  ⟨c9_unknown_identifiers.1 sampleGenConfig ⟨"bad-def", "unknown_backend", []⟩ [] rfl,
   c9_unknown_identifiers.2 sampleGenConfig "unknown_exporter" ["bigquery"] rfl⟩

/-! ## The C1 / C2 scenario: a 1-hour and a 6-hour window -/

/-- The 1-hour policy step of the cross-window scenario. -/
def step1h : PolicyStep :=
  { name := "1 hour", window := 3600, burn_rate_threshold := 2,
    message_alert := "Page", message_ok := "OK" }

/-- The 6-hour policy step of the cross-window scenario. -/
def step6h : PolicyStep :=
  { name := "6 hours", window := 21600, burn_rate_threshold := 2,
    message_alert := "Page", message_ok := "OK" }

/-- The build output for the 1-hour window on counts `(90, 10)` with
goal 0.9. -/
def built1h : BuiltFields :=
  { sli_measurement := 9 / 10, good_events_count := 90, bad_events_count := 10,
    events_count := 100, gap := 0, error_budget_target := 1 / 10,
    error_budget_measurement := 1 / 10, error_budget_burn_rate := 1,
    error_budget_remaining_minutes := 0, error_budget_minutes := 6,
    error_minutes := 6, alert := false, consequence_message := "OK" }

/-- The build output for the 6-hour window on counts `(495, 5)` with
goal 0.9. -/
def built6h : BuiltFields :=
  { sli_measurement := 99 / 100, good_events_count := 495, bad_events_count := 5,
    events_count := 500, gap := 9 / 100, error_budget_target := 1 / 10,
    error_budget_measurement := 1 / 100, error_budget_burn_rate := 1 / 10,
    error_budget_remaining_minutes := 162 / 5, error_budget_minutes := 36,
    error_minutes := 18 / 5, alert := false, consequence_message := "OK" }

/-- Evaluate `pyInt` on an integer value embedded in `ℚ`. -/
theorem pyInt_eq_of_cast (q : ℚ) (z : ℤ) (h : q = (z : ℚ)) : pyInt q = z := by
  rw [h, pyInt_intCast]

/-- Build evaluation for the 1-hour window. -/
theorem built1h_eval :
    buildFields step1h (9 / 10) 3600 (.tup [.num 90, .num 10]) = some built1h := by
  have hsli : get_sli (.tup [.num 90, .num 10]) = some (9 / 10, 90, 10) := by
    simp [get_sli, normalizeNoData]
    norm_num [NO_DATA]
    rw [pyRound_eq_self (9 / 10) 6 900000 (by norm_num)]
  rw [buildFields, hsli]
  have h0 : ¬((1 : ℚ) - 9 / 10 = 0) := by norm_num
  have hbr : pyRound ((1 - 9 / 10) / (1 - 9 / 10)) 1 = 1 := by
    rw [show ((1 : ℚ) - 9 / 10) / (1 - 9 / 10) = 1 by norm_num]
    exact pyRound_eq_self 1 1 10 (by norm_num)
  simp only [if_neg h0, hbr]
  have halert : decide ((1 : ℚ) > step1h.burn_rate_threshold) = false :=
    decide_eq_false (by norm_num [step1h])
  simp only [halert, Bool.false_eq_true, if_false]
  rw [if_pos (by norm_num)]
  simp only [built1h, step1h, Option.some.injEq]
  refine BuiltFields.mk.injEq .. ▸ ?_
  norm_num [pyInt_eq_of_cast 90 90 (by norm_num), pyInt_eq_of_cast 10 10 (by norm_num),
    pyInt_eq_of_cast (100 : ℚ) 100 (by norm_num)]

/-- Build evaluation for the 6-hour window. -/
theorem built6h_eval :
    buildFields step6h (9 / 10) 21600 (.tup [.num 495, .num 5]) = some built6h := by
  have hsli : get_sli (.tup [.num 495, .num 5]) = some (99 / 100, 495, 5) := by
    simp [get_sli, normalizeNoData]
    norm_num [NO_DATA]
    rw [pyRound_eq_self (99 / 100) 6 990000 (by norm_num)]
  rw [buildFields, hsli]
  have h0 : ¬((1 : ℚ) - 9 / 10 = 0) := by norm_num
  have hbr : pyRound ((1 - 99 / 100) / (1 - 9 / 10)) 1 = 1 / 10 := by
    rw [show ((1 : ℚ) - 99 / 100) / (1 - 9 / 10) = 1 / 10 by norm_num]
    exact pyRound_eq_self (1 / 10) 1 1 (by norm_num)
  simp only [if_neg h0, hbr]
  have halert : decide ((1 : ℚ) / 10 > step6h.burn_rate_threshold) = false :=
    decide_eq_false (by norm_num [step6h])
  simp only [halert, Bool.false_eq_true, if_false]
  rw [if_pos (by norm_num)]
  simp only [built6h, step6h, Option.some.injEq]
  refine BuiltFields.mk.injEq .. ▸ ?_
  norm_num [pyInt_eq_of_cast 495 495 (by norm_num), pyInt_eq_of_cast 5 5 (by norm_num),
    pyInt_eq_of_cast (500 : ℚ) 500 (by norm_num)]

/-- The 1-hour report of the scenario. -/
def report1h : SLOReportT := setBuilt (defaultReport (sampleConfig (9 / 10)) step1h 0 []) built1h

/-- The 6-hour report of the scenario. -/
def report6h : SLOReportT := setBuilt (defaultReport (sampleConfig (9 / 10)) step6h 0 []) built6h

/-- Report evaluation for the 1-hour window. -/
theorem report1h_eval :
    makeReport (sampleConfig (9 / 10)) step1h 0 1 [] (.tup [.num 90, .num 10]) =
      some report1h := by
  have hV : validateData 1 (.tup [.num 90, .num 10]) = .ok () := by
    simp [validateData, pyIsNum]
    norm_num [NO_DATA]
  have hB : buildFields step1h (sampleConfig (9 / 10)).spec.goal step1h.window
      (.tup [.num 90, .num 10]) = some built1h := built1h_eval
  simp only [makeReport, hV, hB]
  rw [if_pos]
  · rfl
  · simp [post_validate_ok, setBuilt, built1h]
    norm_num

/-- Report evaluation for the 6-hour window. -/
theorem report6h_eval :
    makeReport (sampleConfig (9 / 10)) step6h 0 1 [] (.tup [.num 495, .num 5]) =
      some report6h := by
  have hV : validateData 1 (.tup [.num 495, .num 5]) = .ok () := by
    simp [validateData, pyIsNum]
    norm_num [NO_DATA]
  have hB : buildFields step6h (sampleConfig (9 / 10)).spec.goal step6h.window
      (.tup [.num 495, .num 5]) = some built6h := built6h_eval
  simp only [makeReport, hV, hB]
  rw [if_pos]
  · rfl
  · simp [post_validate_ok, setBuilt, built6h]
    norm_num

/-- The step inputs of the cross-window scenario: 1h with bad count 10,
then 6h with bad count 5. -/
def scenarioSteps : List StepInput :=
  [⟨step1h, [], .tup [.num 90, .num 10]⟩, ⟨step6h, [], .tup [.num 495, .num 5]⟩]

/-- C1 counterexample: on the scenario `{1h: bad=10, 6h: bad=5}` the
consistency check deletes the 1-hour window (key 3600) from the export
batch and keeps the 6-hour window (key 21600): the export batch after
`compute` holds exactly the 6h report, refuting the claim that the 6h
report is the one dropped. -/
theorem c1_counterexample :
    (compute (sampleConfig (9 / 10)) 0 1 false false (fun _ => true) (fun _ => none) []
        scenarioSteps).map (fun st => st.reportswindow.map Prod.fst) = some [21600] := by
  have hv1 : report1h.valid = true := rfl
  have hv6 : report6h.valid = true := rfl
  have hw1 : get_window report1h = 3600 := rfl
  have hw6 : get_window report6h = 21600 := rfl
  have hb1 : get_badeventscount report1h = 10 := rfl
  have hb6 : get_badeventscount report6h = 5 := rfl
  have hbump1 : bumpKey ([] : List ℤ) 3600 = 3600 := by
    rw [bumpKey]; simp
  have hbump2 : bumpKey [(3600 : ℤ)] 21600 = 21600 := by
    rw [bumpKey]; norm_num
  have hsteps : computeSteps (sampleConfig (9 / 10)) 0 1 false scenarioSteps 0 ⟨[], [], [], []⟩ =
      some ⟨[(0, to_json report1h), (1, to_json report6h)],
        [(3600, 10), (21600, 5)], [(3600, 0), (21600, 1)],
        [(3600, "1 hour"), (21600, "6 hours")]⟩ := by
    simp only [scenarioSteps, computeSteps, report1h_eval, report6h_eval, hv1, hv6,
      hw1, hw6, hb1, hb6, Bool.true_eq_false, if_false, Bool.false_eq_true, List.map_nil,
      List.map_cons, List.nil_append, List.cons_append, List.append_nil]
    simp [hbump1, hbump2, get_windowname, report1h, report6h, setBuilt, defaultReport,
      step1h, step6h]
  have hdel : consistencyDeletions [(3600, 10), (21600, 5)] = [3600] := by decide
  have hfil : List.filter (fun p => ¬ ([(3600 : ℤ)].contains p.1))
      ([(3600, 0), (21600, 1)] : List (ℤ × ℕ)) = [(21600, 1)] := by decide
  simp only [compute, hsteps, Option.map_some, applyConsistency, hdel, hfil, applyExport,
    Bool.false_eq_true, if_false, List.map_cons, List.map_nil, Option.some.injEq]
  rfl

/-- C1 (amended): walking the per-window index in ascending window
order, whenever a smaller window's (nonnegative) bad-event count
exceeds the next larger window's, it is the smaller window — the
previous key of the walk — whose report is removed from the export
batch; in particular for `{1h: bad=10, 6h: bad=5}` the 1h report is the
one dropped. -/
theorem c1_consistency_drops_smaller_window :
    (∀ (bad : List (ℤ × ℤ)) (ks : List ℤ) (k lastbad lastkey : ℤ) (acc : List ℤ),
      0 ≤ lastbad → (List.lookup k bad).getD 0 < lastbad →
      consistencyGo bad (k :: ks) lastbad lastkey acc =
        consistencyGo bad ks ((List.lookup k bad).getD 0) k (acc ++ [lastkey])) ∧
    (∀ w1 w2 b1 b2 : ℤ, w1 < w2 → 0 ≤ b1 → b2 < b1 →
      consistencyDeletions [(w1, b1), (w2, b2)] = [w1]) := by
  constructor
  · intro bad ks k lastbad lastkey acc h0 hgt
    rw [consistencyGo]
    rw [if_neg (not_lt.mpr h0), if_pos hgt]
  · intro w1 w2 b1 b2 hw h0 hb
    have hne : (w2 == w1) = false := beq_eq_false_iff_ne.mpr (ne_of_gt hw)
    have hsort : sortKeys [w1, w2] = [w1, w2] := by
      simp [sortKeys, insSorted, if_pos (le_of_lt hw)]
    rw [consistencyDeletions]
    simp only [List.map_cons, List.map_nil, hsort]
    rw [consistencyGo]
    rw [if_pos (by norm_num)]
    rw [consistencyGo]
    simp only [List.lookup, beq_self_eq_true, if_pos, hne, Option.getD_some]
    rw [if_neg (not_lt.mpr h0), if_pos hb]
    rw [consistencyGo]
    simp

/-- Witness for C1 (amended) at the scenario numbers. -/
theorem c1_witness :
    consistencyGo [((3600 : ℤ), (10 : ℤ)), (21600, 5)] [21600] 10 3600 [] =
      consistencyGo [((3600 : ℤ), (10 : ℤ)), (21600, 5)] [] 5 21600 ([] ++ [3600]) ∧
    consistencyDeletions [((3600 : ℤ), (10 : ℤ)), (21600, 5)] = [3600] := by
  constructor
  · have h := c1_consistency_drops_smaller_window.1 [((3600 : ℤ), (10 : ℤ)), (21600, 5)]
      [] 21600 10 3600 [] (by norm_num) (by decide)
    simpa using h
  · have h := c1_consistency_drops_smaller_window.2 3600 21600 10 5 (by norm_num)
      (by norm_num) (by norm_num)
    exact h

/-! ## C2: one report per step, in order, in the returned list -/

/-- The report the loop builds for one step input (well-defined whenever
`makeReport` succeeds). -/
def reportOf (config : SLOConfig) (ts : ℤ) (mv : ℚ) (si : StepInput) : SLOReportT :=
  (makeReport config si.step ts mv si.backendErrors si.data).getD
    (defaultReport config si.step ts si.backendErrors)

/-- Both branches of an `if` returning `some` yield a value. -/
theorem ite_some_isSome {α : Type} (c : Prop) [Decidable c] (a b : α) :
    ∃ x, (if c then some a else some b) = some x := by
  split
  · exact ⟨a, rfl⟩
  · exact ⟨b, rfl⟩

/-- With a minimum-valid-events threshold of at least 1, report
construction never raises: every validated pair divides safely
(`validated_pair_denom_pos`) and every failure is caught. -/
theorem makeReport_total (config : SLOConfig) (step : PolicyStep) (ts : ℤ)
    (mv : ℚ) (be : List String) (data : BackendData) (hmv : 1 ≤ mv) :
    makeReport config step ts mv be data = some (reportOf config ts mv ⟨step, be, data⟩) := by
  suffices h : ∃ r, makeReport config step ts mv be data = some r by
    obtain ⟨r, hr⟩ := h
    rw [hr, reportOf]
    simp [hr]
  simp only [makeReport]
  cases hV : validateData mv data with
  | error msg => exact ⟨_, rfl⟩
  | ok u =>
    have hsli : ∃ x, get_sli data = some x := by
      cases data with
      | pynone => simp [validateData] at hV
      | other t => simp [validateData] at hV
      | num q => exact ⟨_, rfl⟩
      | tup xs =>
        rcases xs with _ | ⟨g, _ | ⟨b, _ | ⟨c, rest⟩⟩⟩
        · simp [validateData] at hV
        · simp [validateData] at hV
        · cases g with
          | num gq =>
            cases b with
            | num bq => exact ⟨_, get_sli_of_validated mv gq bq hmv hV⟩
            | pynone => simp [validateData, pyIsNum] at hV
            | other t => simp [validateData, pyIsNum] at hV
          | pynone => simp [validateData, pyIsNum] at hV
          | other t => simp [validateData, pyIsNum] at hV
        · simp [validateData] at hV
    obtain ⟨x, hx⟩ := hsli
    obtain ⟨sli, good, bad⟩ := x
    simp only [buildFields, hx]
    exact ite_some_isSome _ _ _

/-- The step tags of a tagged list are the consecutive indices. -/
theorem tagFrom_map_fst (l : List α) : ∀ i : ℕ, (tagFrom i l).map Prod.fst = List.range' i l.length := by
  induction l with
  | nil => intro i; simp [tagFrom]
  | cons x xs ih => intro i; simp [tagFrom, List.range'_succ, ih]

/-- Untagging a tagged list gives the list back. -/
theorem tagFrom_map_snd (l : List α) : ∀ i : ℕ, (tagFrom i l).map Prod.snd = l := by
  induction l with
  | nil => intro i; simp [tagFrom]
  | cons x xs ih => intro i; simp [tagFrom, ih]

/-- Outside delete mode and with the default minimum-valid-events
threshold, the per-step loop appends exactly one JSON report per step,
tagged in step order — invalid reports included. -/
theorem computeSteps_reports (config : SLOConfig) (ts : ℤ) (mv : ℚ) (hmv : 1 ≤ mv) :
    ∀ (steps : List StepInput) (idx : ℕ) (st : ComputeState),
      ∃ st', computeSteps config ts mv false steps idx st = some st' ∧
        st'.reports = st.reports ++
          tagFrom idx (steps.map fun si => to_json (reportOf config ts mv si)) := by
  intro steps
  induction steps with
  | nil => intro idx st; exact ⟨st, rfl, by simp [tagFrom]⟩
  | cons si rest ih =>
    intro idx st
    have hr := makeReport_total config si.step ts mv si.backendErrors si.data hmv
    by_cases hv : (reportOf config ts mv si).valid = false
    · obtain ⟨st', hst', hrep⟩ := ih (idx + 1) { st with reports := st.reports ++
        [(idx, to_json (reportOf config ts mv si))] }
      refine ⟨st', ?_, ?_⟩
      · simp only [computeSteps, hr]
        rw [if_pos hv]
        exact hst'
      · rw [hrep]
        simp [tagFrom, List.append_assoc]
    · obtain ⟨st', hst', hrep⟩ := ih (idx + 1)
        { reports := st.reports ++ [(idx, to_json (reportOf config ts mv si))]
          badevents := st.badevents ++
            [(bumpKey (st.badevents.map Prod.fst) (get_window (reportOf config ts mv si)),
              get_badeventscount (reportOf config ts mv si))]
          reportswindow := st.reportswindow ++
            [(bumpKey (st.badevents.map Prod.fst) (get_window (reportOf config ts mv si)), idx)]
          reportswindowname := st.reportswindowname ++
            [(bumpKey (st.badevents.map Prod.fst) (get_window (reportOf config ts mv si)),
              get_windowname (reportOf config ts mv si))] }
      refine ⟨st', ?_, ?_⟩
      · simp only [computeSteps, hr]
        rw [if_neg hv, if_neg (by simp : ¬(false = true))]
        exact hst'
      · rw [hrep]
        simp [tagFrom, List.append_assoc]

/-- The export phase never changes which step each returned report came
from. -/
theorem applyExport_map_fst (doExport : Bool) (importOk : String → Bool)
    (send : String → Option String) (exporters : List ExporterCfg) (st : ComputeState) :
    (applyExport doExport importOk send exporters st).reports.map Prod.fst =
      st.reports.map Prod.fst := by
  unfold applyExport
  split
  · simp only [List.map_map]
    apply List.map_congr_left
    intro p _
    simp only [Function.comp_apply]
    split <;> rfl
  · rfl

/-- With exporting disabled the export phase is the identity. -/
theorem applyExport_false (importOk : String → Bool) (send : String → Option String)
    (exporters : List ExporterCfg) (st : ComputeState) :
    applyExport false importOk send exporters st = st := rfl

/-- The consistency check never touches the returned report list. -/
theorem applyConsistency_reports (st : ComputeState) :
    (applyConsistency st).reports = st.reports := rfl

/-- C2: outside delete mode, with the default minimum-valid-events
threshold, `compute` builds one report per policy step in the given
order and returns all of them — invalid reports and reports the
consistency check dropped from the export batch included (dropping
affects only the export batch, never the returned list). -/
theorem c2_returns_one_report_per_step (config : SLOConfig) (ts : ℤ) (mv : ℚ)
    (doExport : Bool) (importOk : String → Bool) (send : String → Option String)
    (exporters : List ExporterCfg) (steps : List StepInput) (hmv : 1 ≤ mv) :
    ∃ st, compute config ts mv false doExport importOk send exporters steps = some st ∧
      st.reports.map Prod.fst = List.range steps.length ∧
      (doExport = false →
        st.reports.map Prod.snd = steps.map fun si => to_json (reportOf config ts mv si)) := by
  obtain ⟨st0, h0, hrep⟩ := computeSteps_reports config ts mv hmv steps 0 ⟨[], [], [], []⟩
  refine ⟨applyExport doExport importOk send exporters (applyConsistency st0), ?_, ?_, ?_⟩
  · simp [compute, h0]
  · rw [applyExport_map_fst, applyConsistency_reports, hrep]
    simp only [List.nil_append]
    rw [tagFrom_map_fst]
    simp [List.range_eq_range']
  · intro hde
    subst hde
    rw [applyExport_false, applyConsistency_reports, hrep]
    simp only [List.nil_append]
    rw [tagFrom_map_snd]

/-- Witness for C2 at the two-step cross-window scenario, where the
consistency check drops the 1h report from the export batch but both
reports are returned. -/
theorem c2_witness :
    ∃ st, compute (sampleConfig (9 / 10)) 0 1 false false (fun _ => true) (fun _ => none) []
        scenarioSteps = some st ∧
      st.reports.map Prod.fst = List.range scenarioSteps.length ∧
      (false = false →
        st.reports.map Prod.snd =
          scenarioSteps.map fun si => to_json (reportOf (sampleConfig (9 / 10)) 0 1 si)) :=
  c2_returns_one_report_per_step (sampleConfig (9 / 10)) 0 1 false (fun _ => true)
    (fun _ => none) [] scenarioSteps le_rfl

end SloGen
